import Mathlib

/-!
Verification of the component build controller (controllers/component_build_controller.go).

The Go controller is embedded shallowly:

* `TriggerTemplate`, `PipelineRun`, `Quantity` model the compared Kubernetes
  objects.  A resource template payload travels as an opaque serialized blob
  (`RawBlob`): distinct blobs may encode the same `PipelineRun` (different
  serializers), and a blob may fail to decode (invalid JSON).
* `IsNewBuildRequired` embeds the drift detector.  The unchecked Go indexing
  `Spec.ResourceTemplates[0]` is modelled with `List.head?`; the whole
  function returns `none` exactly where the Go code would panic.
* `getGitProvider` is embedded on top of `urlParse`, a model of the Go
  standard library function net/url.Parse restricted to the parts the
  controller observes (scheme detection, authority/host extraction, userinfo
  split at the last at-sign, port validation, control-character rejection);
  percent-escape validation and IPv6 zone handling are omitted.
* `SubmitNewBuild` and `Reconcile` embed the orchestration as functions of an
  explicit environment recording the outcome of every external call; the
  result records every write the Go code would perform.
-/

/-- Model of k8s.io/apimachinery resource.Quantity: a decimal number
`value * 10 ^ scale` together with the string it was parsed from.  Go
DeepEqual-style structural equality sees the cached string; the comparer
installed in the diff options uses `Quantity.Cmp`, i.e. numeric value only. -/
structure Quantity where
  value : Int
  scale : Int
  format : String
deriving DecidableEq

/-- Embedding of the cmp.Comparer on resource.Quantity from
triggerTemplateDiffOpts and triggerResourceTemplateDiffOpts:
`x.Cmp(y) == 0`, numeric equality of `value * 10 ^ scale`. -/
def quantityCmpEq (x y : Quantity) : Bool :=
  let m := min x.scale y.scale
  decide (x.value * 10 ^ (x.scale - m).toNat = y.value * 10 ^ (y.scale - m).toNat)

/-- Projection of tektonapi.PipelineRun to the fields the comparison can
distinguish: object name and generateName (metadata is NOT ignored in the
resource-template comparison), the parameter list, and resource-quantity
fields (e.g. limits), which are compared through `quantityCmpEq`. -/
structure PipelineRun where
  name : String
  generateName : String
  params : List (String × String)
  limits : List (String × Quantity)
deriving DecidableEq

/-- Embedding of a serialized resource-template payload
(runtime.RawExtension.Raw).  `invalid` stands for bytes that do not decode
into a PipelineRun; `encodes p n` stands for any of the possible serialized
forms of `p` (the `n` distinguishes serializers that order or format fields
differently, so blobs with different bytes can decode to the same object). -/
inductive RawBlob where
  | invalid : String → RawBlob
  | encodes : PipelineRun → Nat → RawBlob
deriving DecidableEq

/-- Embedding of json.Unmarshal of a raw payload into tektonapi.PipelineRun. -/
def unmarshalPipelineRun : RawBlob → Option PipelineRun
  | .invalid _ => none
  | .encodes p _ => some p

/-- triggersapi TriggerResourceTemplate: a wrapper around the raw payload.
Its embedded runtime.RawExtension.Object field is always nil here, so after
cmpopts.IgnoreFields(runtime.RawExtension, Raw) nothing of an element is
compared. -/
structure TriggerResourceTemplate where
  raw : RawBlob
deriving DecidableEq

/-- triggersapi ParamSpec of a TriggerTemplate. -/
structure ParamSpec where
  name : String
  description : String
  default : Option String
deriving DecidableEq

/-- TypeMeta of a Kubernetes object (ignored by the step-1 comparison). -/
structure TypeMeta where
  apiVersion : String
  kind : String
deriving DecidableEq

/-- ObjectMeta of a Kubernetes object (ignored by the step-1 comparison). -/
structure ObjectMeta where
  name : String
  namesp : String
  resourceVersion : String
  creationTimestamp : Int
deriving DecidableEq

/-- triggersapi TriggerTemplateSpec. -/
structure TriggerTemplateSpec where
  params : List ParamSpec
  resourcetemplates : List TriggerResourceTemplate
deriving DecidableEq

/-- triggersapi TriggerTemplate. -/
structure TriggerTemplate where
  typeMeta : TypeMeta
  objectMeta : ObjectMeta
  spec : TriggerTemplateSpec
deriving DecidableEq

/-- Embedding of `cmp.Diff(existing, expected, triggerTemplateDiffOpts...) == ""`:
TypeMeta and ObjectMeta are ignored wholesale, every RawExtension.Raw is
ignored, and the Quantity comparer is installed (inert here: no
Quantity-typed field remains in the compared structure).  What is left of a
TriggerTemplate is its parameter list and the number of resource templates. -/
def triggerTemplatesEqualIgnoringRaw (a b : TriggerTemplate) : Bool :=
  decide (a.spec.params = b.spec.params) &&
  decide (a.spec.resourcetemplates.length = b.spec.resourcetemplates.length)

/-- Pointwise comparison of quantity-valued fields under the Quantity
comparer: keys structurally, values by `quantityCmpEq`. -/
def limitsEqual : List (String × Quantity) → List (String × Quantity) → Bool
  | [], [] => true
  | _ :: _, [] => false
  | [], _ :: _ => false
  | (k1, q1) :: t1, (k2, q2) :: t2 =>
    decide (k1 = k2) && quantityCmpEq q1 q2 && limitsEqual t1 t2

/-- Embedding of `cmp.Diff(existing, expected, triggerResourceTemplateDiffOpts...) == ""`
on deserialized PipelineRuns: structural equality everywhere except
quantity-valued fields, which go through the Quantity comparer. -/
def pipelineRunsEqual (a b : PipelineRun) : Bool :=
  decide (a.name = b.name) && decide (a.generateName = b.generateName) &&
  decide (a.params = b.params) && limitsEqual a.limits b.limits

/-- Error type of the drift detector. -/
inductive BuildErr where
  | deserializationFailed
deriving DecidableEq

/-- Embedding of ComponentBuildReconciler.IsNewBuildRequired.  The Go pair
`(bool, error)` is the value inside `some`; the outer `Option` is `none`
exactly where the Go code would panic on the unchecked indexing
`Spec.ResourceTemplates[0]` of an empty slice. -/
def IsNewBuildRequired (existing expected : TriggerTemplate) :
    Option (Bool × Option BuildErr) :=
  if triggerTemplatesEqualIgnoringRaw existing expected then
    match expected.spec.resourcetemplates.head? with
    | none => none
    | some expectedRT =>
      match unmarshalPipelineRun expectedRT.raw with
      | none => some (false, some .deserializationFailed)
      | some expectedRun =>
        match existing.spec.resourcetemplates.head? with
        | none => none
        | some existingRT =>
          match unmarshalPipelineRun existingRT.raw with
          | none => some (false, some .deserializationFailed)
          | some existingRun =>
            if pipelineRunsEqual existingRun expectedRun then some (false, none)
            else some (true, none)
  else some (true, none)

/-- Control byte test of net/url (stringContainsCTLByte). -/
def isCTLChar (c : Char) : Bool :=
  decide (c.toNat < 32) || decide (c.toNat = 127)

/-- Scheme character classes of net/url getscheme: after the first
character, digits and plus, minus, dot are also allowed. -/
def isSchemeTail (c : Char) : Bool :=
  c.isDigit || decide (c = '+') || decide (c = '-') || decide (c = '.')

/-- Worker of net/url getscheme: scan for a colon preceded only by scheme
characters.  `orig` is the whole input (returned untouched when no scheme is
found), `acc` the scheme characters read so far. -/
def getschemeAux (orig : List Char) (acc : List Char) :
    List Char → Except String (String × List Char)
  | [] => .ok ("", orig)
  | c :: rest =>
    if c.isAlpha then getschemeAux orig (acc ++ [c]) rest
    else if isSchemeTail c then
      if acc = [] then .ok ("", orig) else getschemeAux orig (acc ++ [c]) rest
    else if c = ':' then
      if acc = [] then .error "missing protocol scheme"
      else .ok (String.mk acc, rest)
    else .ok ("", orig)

/-- Go split(s, sep, true): the part before the first occurrence of `sep`
and the part after it (empty when `sep` is absent). -/
def splitCut (sep : Char) : List Char → List Char × List Char
  | [] => ([], [])
  | c :: rest =>
    if c = sep then ([], rest)
    else
      let p := splitCut sep rest
      (c :: p.1, p.2)

/-- Characters before the first occurrence of `sep` (all of them if absent). -/
def takeUntil (sep : Char) : List Char → List Char
  | [] => []
  | c :: rest => if c = sep then [] else c :: takeUntil sep rest

/-- Characters from the first occurrence of `sep` on, the separator
included; empty if absent. -/
def dropFrom (sep : Char) : List Char → List Char
  | [] => []
  | c :: rest => if c = sep then c :: rest else dropFrom sep rest

/-- Split at the LAST occurrence of `sep` (net/url strings.LastIndex):
`none` when absent, otherwise the parts strictly before and after it. -/
def splitAtLast (sep : Char) : List Char → Option (List Char × List Char)
  | [] => none
  | c :: rest =>
    match splitAtLast sep rest with
    | some (a, b) => some (c :: a, b)
    | none => if c = sep then some ([], rest) else none

/-- List version of strings.HasPrefix. -/
def listStartsWith : List Char → List Char → Bool
  | _, [] => true
  | [], _ :: _ => false
  | c :: cs, d :: ds => decide (c = d) && listStartsWith cs ds

/-- net/url validOptionalPort: empty, or a colon followed by digits only. -/
def validOptionalPort : List Char → Bool
  | [] => true
  | c :: rest => decide (c = ':') && rest.all (fun d => d.isDigit)

/-- net/url validUserinfo character test. -/
def isUserinfoChar (c : Char) : Bool :=
  c.isAlpha || c.isDigit ||
  decide (c = '-') || decide (c = '.') || decide (c = '_') || decide (c = ':') ||
  decide (c = '~') || decide (c = '!') || decide (c = '$') || decide (c = '&') ||
  decide (c.toNat = 39) || decide (c = '(') || decide (c = ')') || decide (c = '*') ||
  decide (c = '+') || decide (c = ',') || decide (c = ';') || decide (c = '=') ||
  decide (c = '%') || decide (c = '@')

/-- Model of net/url parseHost: bracketed hosts must close their bracket and
may carry an optional numeric port after it; otherwise everything after the
last colon, if any, must be a valid optional port.  The returned host keeps
its port.  (Percent-escape validation of host bytes is omitted.) -/
def parseHost (host : List Char) : Except String String :=
  match host with
  | '[' :: _ =>
    match splitAtLast ']' host with
    | none => .error "missing closing bracket in host"
    | some (_, afterBracket) =>
      if validOptionalPort afterBracket then .ok (String.mk host)
      else .error "invalid port after host"
  | _ =>
    match splitAtLast ':' host with
    | none => .ok (String.mk host)
    | some (_, afterColon) =>
      if validOptionalPort (':' :: afterColon) then .ok (String.mk host)
      else .error "invalid port after host"

/-- Model of net/url parseAuthority: userinfo is everything before the LAST
at-sign and is stripped from the host; the rest must be a valid host. -/
def parseAuthority (authority : List Char) :
    Except String (Option String × String) :=
  match splitAtLast '@' authority with
  | none =>
    match parseHost authority with
    | .error e => .error e
    | .ok h => .ok (none, h)
  | some (userinfo, hostPart) =>
    if userinfo.all isUserinfoChar then
      match parseHost hostPart with
      | .error e => .error e
      | .ok h => .ok (some (String.mk userinfo), h)
    else .error "invalid userinfo"

/-- Parsed URL as the controller observes it (net/url URL restricted to the
fields read here; `opq` is the Opaque component). -/
structure GoURL where
  scheme : String
  opq : String
  user : Option String
  host : String
  path : String
  rawQuery : String
  frag : String
deriving DecidableEq

/-- Model of the body of net/url parse (viaRequest = false): reject control
characters, detect the scheme and lowercase it, cut the query, take the
opaque early return for a scheme-qualified non-slash remainder, reject a
colon in the first path segment of a scheme-less URL, and parse the
authority of a double-slash remainder. -/
def urlParseMain (chars : List Char) : Except String GoURL :=
  if chars.any isCTLChar then
    .error "net/url: invalid control character in URL"
  else
    match getschemeAux chars [] chars with
    | .error e => .error e
    | .ok (rawScheme, rest0) =>
      let scheme := String.mk (rawScheme.data.map Char.toLower)
      let q := splitCut '?' rest0
      let rest1 := q.1
      let query := q.2
      if ¬ listStartsWith rest1 ['/'] ∧ scheme ≠ "" then
        .ok ⟨scheme, String.mk rest1, none, "", "", String.mk query, ""⟩
      else if ¬ listStartsWith rest1 ['/'] ∧ scheme = "" ∧
          (takeUntil '/' rest1).contains ':' then
        .error "first path segment in URL cannot contain a colon"
      else if (scheme ≠ "" ∨ ¬ listStartsWith rest1 ['/', '/', '/']) ∧
          listStartsWith rest1 ['/', '/'] then
        let after2 := rest1.drop 2
        let authority := takeUntil '/' after2
        let rest2 := dropFrom '/' after2
        match parseAuthority authority with
        | .error e => .error e
        | .ok uh => .ok ⟨scheme, "", uh.1, uh.2, String.mk rest2, String.mk query, ""⟩
      else
        .ok ⟨scheme, "", none, "", String.mk rest1, String.mk query, ""⟩

/-- Model of net/url.Parse: cut the fragment at the first hash sign, parse
the remainder. -/
def urlParse (rawURL : String) : Except String GoURL :=
  let f := splitCut '#' rawURL.toList
  match urlParseMain f.1 with
  | .error e => .error e
  | .ok u => .ok { u with frag := String.mk f.2 }

/-- Embedding of getGitProvider: the Go pair `(string, error)` is a string
together with an optional error message.  On parse failure or an empty
scheme it returns the empty string and an error; otherwise scheme,
separator, host. -/
def getGitProvider (gitURL : String) : String × Option String :=
  match urlParse gitURL with
  | .error e =>
    ("", some ("failed to parse string into a URL: " ++ e ++ " or scheme is empty"))
  | .ok u =>
    if u.scheme = "" then
      ("", some "failed to parse string into a URL: scheme is empty")
    else (u.scheme ++ "://" ++ u.host, none)

/-- Decidable equality of call outcomes, used to evaluate the embedding on
concrete inputs. -/
instance {e a : Type} [DecidableEq e] [DecidableEq a] : DecidableEq (Except e a) := fun x y =>
  match x, y with
  | .ok v, .ok w =>
    if h : v = w then isTrue (by rw [h]) else isFalse (by intro hc; cases hc; exact h rfl)
  | .error v, .error w =>
    if h : v = w then isTrue (by rw [h]) else isFalse (by intro hc; cases hc; exact h rfl)
  | .ok _, .error _ => isFalse (by intro hc; cases hc)
  | .error _, .ok _ => isFalse (by intro hc; cases hc)

/-- AppStudio Component as read by the controller: identity, the declared
git source (URL and optional secret name; empty string means no secret),
and the devfile status flag. -/
structure Component where
  name : String
  namesp : String
  application : String
  gitURL : String
  gitSecretName : String
  statusDevfile : String
deriving DecidableEq

/-- corev1.ObjectReference as stored in ServiceAccount.Secrets; only the
name takes part in the link check, and a freshly linked entry carries only
its name. -/
structure ObjectReference where
  name : String
deriving DecidableEq

/-- corev1.ServiceAccount restricted to the field the controller touches. -/
structure ServiceAccount where
  secrets : List ObjectReference
deriving DecidableEq

/-- The scan loop of updateServiceAccountIfSecretNotLinked: does some linked
secret carry exactly this name. -/
def secretLinked (gitSecretName : String) : List ObjectReference → Bool
  | [] => false
  | credentialSecret :: rest =>
    if credentialSecret.name = gitSecretName then true
    else secretLinked gitSecretName rest

/-- Embedding of updateServiceAccountIfSecretNotLinked.  The Go function
mutates the service account through a pointer and returns whether an update
is needed; here the (possibly) mutated account is returned alongside. -/
def updateServiceAccountIfSecretNotLinked (gitSecretName : String)
    (serviceAccount : ServiceAccount) : Bool × ServiceAccount :=
  if secretLinked gitSecretName serviceAccount.secrets then
    (false, serviceAccount)
  else
    (true, { serviceAccount with
              secrets := serviceAccount.secrets ++ [{ name := gitSecretName }] })

/-- corev1.Secret restricted to what the controller touches; `none`
annotations model a nil map. -/
structure SecretObj where
  annotations : Option (List (String × String))
deriving DecidableEq

/-- Map write `m[k] = v` on an association-list model of a Go string map. -/
def setAnn : List (String × String) → String → String → List (String × String)
  | [], k, v => [(k, v)]
  | (k0, v0) :: rest, k, v =>
    if k0 = k then (k, v) :: rest else (k0, v0) :: setAnn rest k v

/-- Map read `m[k]` on the association-list model. -/
def lookupAnn : List (String × String) → String → Option String
  | [], _ => none
  | (k0, v0) :: rest, k => if k0 = k then some v0 else lookupAnn rest k

/-- Outcome classification of a client call (apimachinery error kinds the
controller distinguishes). -/
inductive KubeErr where
  | notFound
  | conflict
  | other : Nat → KubeErr
deriving DecidableEq

/-- Outcomes of the external calls SubmitNewBuild makes, in program order.
`updateSAResults` lists the outcome each successive service-account update
attempt would have, so that a hypothetical retry is expressible. -/
structure SubmitEnv where
  getGitSecret : Except KubeErr SecretObj
  updateSecretResult : Option KubeErr
  getServiceAccount : Except KubeErr ServiceAccount
  updateSAResults : List (Option KubeErr)
  setOwnerRefResult : Option KubeErr
  createBuildResult : Option KubeErr

/-- What a SubmitNewBuild invocation returned and wrote: the error (if any),
the secret and service account passed to their update calls (if reached),
how many service-account update attempts were made, and whether the
PipelineRun create call succeeded. -/
structure SubmitResult where
  err : Option KubeErr
  secretWritten : Option SecretObj
  saWritten : Option ServiceAccount
  saUpdateAttempts : Nat
  buildCreated : Bool
deriving DecidableEq

/-- Tail of SubmitNewBuild: generate the initial PipelineRun, attach the
owner reference (a failure there is only logged in the source, so
`setOwnerRefResult` is ignored), create the run. -/
def submitCreate (env : SubmitEnv) (secretWritten : Option SecretObj)
    (saWritten : Option ServiceAccount) (attempts : Nat) : SubmitResult :=
  match env.createBuildResult with
  | some e => ⟨some e, secretWritten, saWritten, attempts, false⟩
  | none => ⟨none, secretWritten, saWritten, attempts, true⟩

/-- Middle of SubmitNewBuild: fetch the pipeline service account, run the
link check, and update the account once if the check asks for it.  The Go
code makes a single update attempt and returns its error unchanged. -/
def submitLinkAndCreate (c : Component) (env : SubmitEnv)
    (secretWritten : Option SecretObj) : SubmitResult :=
  match env.getServiceAccount with
  | .error e => ⟨some e, secretWritten, none, 0, false⟩
  | .ok sa =>
    let upd := updateServiceAccountIfSecretNotLinked c.gitSecretName sa
    if upd.1 then
      match env.updateSAResults.headD none with
      | some e => ⟨some e, secretWritten, some upd.2, 1, false⟩
      | none => submitCreate env secretWritten (some upd.2) 1
    else submitCreate env secretWritten none 0

/-- The best-effort provider string: SubmitNewBuild discards the error of
getGitProvider and uses whatever string came back. -/
def gitProviderBestEffort (gitURL : String) : String :=
  (getGitProvider gitURL).1

/-- Embedding of ComponentBuildReconciler.SubmitNewBuild.  When the
component declares a secret, that secret is fetched, its provider annotation
is overwritten with the best-effort provider string, and it is updated;
then the service account is fetched and linked, and the initial PipelineRun
is created. -/
def SubmitNewBuild (c : Component) (env : SubmitEnv) : SubmitResult :=
  if c.gitSecretName = "" then submitLinkAndCreate c env none
  else
    match env.getGitSecret with
    | .error e => ⟨some e, none, none, 0, false⟩
    | .ok s =>
      let anns := s.annotations.getD []
      let s2 : SecretObj :=
        ⟨some (setAnn anns "tekton.dev/git-0" (gitProviderBestEffort c.gitURL))⟩
      match env.updateSecretResult with
      | some e => ⟨some e, some s2, none, 0, false⟩
      | none => submitLinkAndCreate c env (some s2)

/-- Result of a client Get as the reconcile loop distinguishes it. -/
inductive GetOutcome (α : Type) where
  | notFound
  | failed : Nat → GetOutcome α
  | found : α → GetOutcome α

/-- Errors the reconcile invocation can return to controller-runtime. -/
inductive ReconcileError where
  | getComponentFailed : Nat → ReconcileError
  | generateFailed : Nat → ReconcileError
  | getTemplateFailed : Nat → ReconcileError
  | buildCheckFailed : BuildErr → ReconcileError
  | submitFailed : KubeErr → ReconcileError
deriving DecidableEq

/-- Observable outcome of one reconcile invocation. -/
inductive ReconcileResult where
  | done
  | requeueAfterSeconds : Nat → ReconcileResult
  | failed : ReconcileError → ReconcileResult
deriving DecidableEq

/-- Outcomes of the external calls Reconcile makes: the component Get, the
GenerateTriggerTemplate collaborator, the existing-template Get, and
everything SubmitNewBuild needs. -/
structure ReconcileEnv where
  component : GetOutcome Component
  expectedTemplate : Except Nat TriggerTemplate
  existingTemplate : GetOutcome TriggerTemplate
  submitEnv : SubmitEnv

/-- Embedding of ComponentBuildReconciler.Reconcile.  `none` again marks the
panic propagated from the drift detector; `requeueAfterSeconds 5` is the
wait-for-sync requeue. -/
def Reconcile (env : ReconcileEnv) : Option ReconcileResult :=
  match env.component with
  | .notFound => some .done
  | .failed e => some (.failed (.getComponentFailed e))
  | .found c =>
    if c.statusDevfile = "" then some .done
    else
      match env.expectedTemplate with
      | .error e => some (.failed (.generateFailed e))
      | .ok expected =>
        match env.existingTemplate with
        | .notFound => some (.requeueAfterSeconds 5)
        | .failed e => some (.failed (.getTemplateFailed e))
        | .found existing =>
          match IsNewBuildRequired existing expected with
          | none => none
          | some (shouldBuild, err) =>
            match err with
            | some e => some (.failed (.buildCheckFailed e))
            | none =>
              if shouldBuild then
                match (SubmitNewBuild c env.submitEnv).err with
                | some e => some (.failed (.submitFailed e))
                | none => some .done
              else some .done

/-- The Quantity comparer is reflexive: a quantity has its own magnitude. -/
theorem quantityCmpEq_refl (q : Quantity) : quantityCmpEq q q = true := by
  simp [quantityCmpEq]

/-- Pointwise quantity comparison is reflexive. -/
theorem limitsEqual_refl (l : List (String × Quantity)) : limitsEqual l l = true := by
  induction l with
  | nil => rfl
  | cons h t ih =>
    obtain ⟨k, q⟩ := h
    simp [limitsEqual, quantityCmpEq_refl, ih]

/-- The PipelineRun comparison is reflexive. -/
theorem pipelineRunsEqual_refl (p : PipelineRun) : pipelineRunsEqual p p = true := by
  simp [pipelineRunsEqual, limitsEqual_refl]

/-- The step-1 comparison is reflexive. -/
theorem triggerTemplatesEqualIgnoringRaw_refl (d : TriggerTemplate) :
    triggerTemplatesEqualIgnoringRaw d d = true := by
  simp [triggerTemplatesEqualIgnoringRaw]

/-- C1: for every well-formed BuildTriggerDefinition d (arbitrary metadata,
first resource template present and its raw payload deserializable into a
PipelineRun), IsNewBuildRequired applied to observed = expected = d returns
false with no error. -/
theorem isNewBuildRequired_self_no_drift (d : TriggerTemplate)
    (rt : TriggerResourceTemplate) (p : PipelineRun)
    (hhead : d.spec.resourcetemplates.head? = some rt)
    (hdecode : unmarshalPipelineRun rt.raw = some p) :
    IsNewBuildRequired d d = some (false, none) := by
  unfold IsNewBuildRequired
  simp [triggerTemplatesEqualIgnoringRaw_refl, hhead, hdecode, pipelineRunsEqual_refl]

/-- C1 witness: a concrete well-formed definition compared against itself. -/
theorem isNewBuildRequired_self_no_drift_witness :
    IsNewBuildRequired
      ⟨⟨"triggers.tekton.dev/v1alpha1", "TriggerTemplate"⟩, ⟨"backend", "default", "7", 3⟩,
        ⟨[⟨"git-repo-url", "", none⟩],
          [⟨.encodes ⟨"", "backend-", [("url", "https://x")], [("cpu", ⟨1, 0, "1"⟩)]⟩ 0⟩]⟩⟩
      ⟨⟨"triggers.tekton.dev/v1alpha1", "TriggerTemplate"⟩, ⟨"backend", "default", "7", 3⟩,
        ⟨[⟨"git-repo-url", "", none⟩],
          [⟨.encodes ⟨"", "backend-", [("url", "https://x")], [("cpu", ⟨1, 0, "1"⟩)]⟩ 0⟩]⟩⟩ =
      some (false, none) :=
  isNewBuildRequired_self_no_drift _ _ _ rfl rfl

/-- C2: a difference in any field the step-1 comparison looks at (parameter
list contents or order, or resource-template count) makes IsNewBuildRequired
return drift = true with no error, whatever the raw payloads hold, so no
deserialization is attempted. -/
theorem isNewBuildRequired_step1_mismatch (observed expected : TriggerTemplate)
    (h : observed.spec.params ≠ expected.spec.params ∨
      observed.spec.resourcetemplates.length ≠ expected.spec.resourcetemplates.length) :
    IsNewBuildRequired observed expected = some (true, none) := by
  have hf : triggerTemplatesEqualIgnoringRaw observed expected = false := by
    unfold triggerTemplatesEqualIgnoringRaw
    rcases h with h | h <;> simp [h]
  unfold IsNewBuildRequired
  simp [hf]

/-- C2 witness: two definitions differing only in a parameter name, both
carrying raw payloads that are not valid JSON, still yield (true, no error). -/
theorem isNewBuildRequired_step1_mismatch_witness :
    (⟨[⟨"git-repo-url", "", none⟩], [⟨.invalid "not json"⟩]⟩ : TriggerTemplateSpec).params ≠
      (⟨[⟨"new-param", "", none⟩], [⟨.invalid "\x7d\x7b"⟩]⟩ : TriggerTemplateSpec).params ∧
    IsNewBuildRequired
      ⟨⟨"v", "TT"⟩, ⟨"a", "ns", "1", 0⟩, ⟨[⟨"git-repo-url", "", none⟩], [⟨.invalid "not json"⟩]⟩⟩
      ⟨⟨"v", "TT"⟩, ⟨"a", "ns", "2", 5⟩, ⟨[⟨"new-param", "", none⟩], [⟨.invalid "\x7d\x7b"⟩]⟩⟩ =
      some (true, none) :=
  ⟨by decide, isNewBuildRequired_step1_mismatch _ _ (Or.inl (by decide))⟩

/-- C10: when both resource-template lists are empty and the step-1
comparison finds no difference, the unchecked first-element access of the Go
code is out of bounds; the embedded function yields no value there. -/
theorem isNewBuildRequired_empty_templates (observed expected : TriggerTemplate)
    (hobs : observed.spec.resourcetemplates = [])
    (hexp : expected.spec.resourcetemplates = [])
    (hparams : observed.spec.params = expected.spec.params) :
    IsNewBuildRequired observed expected = none := by
  have ht : triggerTemplatesEqualIgnoringRaw observed expected = true := by
    simp [triggerTemplatesEqualIgnoringRaw, hparams, hobs, hexp]
  unfold IsNewBuildRequired
  simp [ht, hexp]

/-- C10 witness: concrete otherwise-equal definitions with no resource
templates. -/
theorem isNewBuildRequired_empty_templates_witness :
    IsNewBuildRequired
      ⟨⟨"v", "TT"⟩, ⟨"a", "ns", "1", 0⟩, ⟨[⟨"p", "", none⟩], []⟩⟩
      ⟨⟨"v", "TT"⟩, ⟨"b", "ns", "9", 4⟩, ⟨[⟨"p", "", none⟩], []⟩⟩ = none :=
  isNewBuildRequired_empty_templates _ _ rfl rfl (by decide)

/-- C3: when the step-1 comparison finds no difference and the first
resource template payload of either side fails to deserialize, the drift
detector returns a non-nil error (with drift = false, so the pair is never
a successful no-drift answer), and Reconcile propagates that error to its
caller instead of submitting or succeeding. -/
theorem deserializationFailurePropagates (env : ReconcileEnv) (c : Component)
    (observed expected : TriggerTemplate) (ort ert : TriggerResourceTemplate)
    (hcomp : env.component = .found c)
    (hdev : c.statusDevfile ≠ "")
    (hgen : env.expectedTemplate = .ok expected)
    (hget : env.existingTemplate = .found observed)
    (heq : triggerTemplatesEqualIgnoringRaw observed expected = true)
    (hoh : observed.spec.resourcetemplates.head? = some ort)
    (heh : expected.spec.resourcetemplates.head? = some ert)
    (hfail : unmarshalPipelineRun ert.raw = none ∨ unmarshalPipelineRun ort.raw = none) :
    IsNewBuildRequired observed expected =
        some (false, some .deserializationFailed) ∧
    Reconcile env =
        some (.failed (.buildCheckFailed .deserializationFailed)) := by
  have hmain : IsNewBuildRequired observed expected =
      some (false, some .deserializationFailed) := by
    unfold IsNewBuildRequired
    rcases hfail with hf | hf
    · simp [heq, heh, hf]
    · cases hu : unmarshalPipelineRun ert.raw with
      | none => simp [heq, heh, hu]
      | some p => simp [heq, heh, hu, hoh, hf]
  refine ⟨hmain, ?_⟩
  unfold Reconcile
  rw [hcomp]
  simp [hdev, hgen, hget, hmain]

/-- C3 witness: a concrete reconcile environment whose observed and expected
definitions agree on step 1 while the expected raw payload is invalid; the
invocation ends in the deserialization error. -/
theorem deserializationFailurePropagates_witness :
    Reconcile
      ⟨.found ⟨"backend", "default", "app", "https://github.com/a/b", "", "devfile"⟩,
        .ok ⟨⟨"v", "TT"⟩, ⟨"tt", "default", "2", 1⟩,
          ⟨[⟨"p", "", none⟩], [⟨.invalid "currupted"⟩]⟩⟩,
        .found ⟨⟨"v", "TT"⟩, ⟨"tt", "default", "1", 0⟩,
          ⟨[⟨"p", "", none⟩], [⟨.encodes ⟨"", "b-", [], []⟩ 0⟩]⟩⟩,
        ⟨.ok ⟨none⟩, none, .ok ⟨[]⟩, [], none, none⟩⟩ =
      some (.failed (.buildCheckFailed .deserializationFailed)) :=
  (deserializationFailurePropagates
    ⟨.found ⟨"backend", "default", "app", "https://github.com/a/b", "", "devfile"⟩,
      .ok ⟨⟨"v", "TT"⟩, ⟨"tt", "default", "2", 1⟩,
        ⟨[⟨"p", "", none⟩], [⟨.invalid "currupted"⟩]⟩⟩,
      .found ⟨⟨"v", "TT"⟩, ⟨"tt", "default", "1", 0⟩,
        ⟨[⟨"p", "", none⟩], [⟨.encodes ⟨"", "b-", [], []⟩ 0⟩]⟩⟩,
      ⟨.ok ⟨none⟩, none, .ok ⟨[]⟩, [], none, none⟩⟩
    ⟨"backend", "default", "app", "https://github.com/a/b", "", "devfile"⟩
    ⟨⟨"v", "TT"⟩, ⟨"tt", "default", "1", 0⟩,
      ⟨[⟨"p", "", none⟩], [⟨.encodes ⟨"", "b-", [], []⟩ 0⟩]⟩⟩
    ⟨⟨"v", "TT"⟩, ⟨"tt", "default", "2", 1⟩,
      ⟨[⟨"p", "", none⟩], [⟨.invalid "currupted"⟩]⟩⟩
    ⟨.encodes ⟨"", "b-", [], []⟩ 0⟩
    ⟨.invalid "currupted"⟩
    rfl (by decide) rfl rfl (by decide) rfl rfl (Or.inl rfl)).2

/-- C4: definitions identical in every compared field except that
corresponding quantity fields of the embedded payloads carry different
string formats of the same magnitude (so their raw bytes differ) produce no
drift: step 1 ignores the raw bytes and step 3 compares quantities through
the numeric comparer. -/
theorem quantityFormattingNoDrift (observed expected : TriggerTemplate)
    (p q : PipelineRun) (n1 n2 : Nat)
    (hparams : observed.spec.params = expected.spec.params)
    (hlen : observed.spec.resourcetemplates.length =
      expected.spec.resourcetemplates.length)
    (hoh : observed.spec.resourcetemplates.head? = some ⟨RawBlob.encodes p n1⟩)
    (heh : expected.spec.resourcetemplates.head? = some ⟨RawBlob.encodes q n2⟩)
    (hname : p.name = q.name) (hgen : p.generateName = q.generateName)
    (hps : p.params = q.params)
    (hlim : limitsEqual p.limits q.limits = true) :
    IsNewBuildRequired observed expected = some (false, none) := by
  have ht : triggerTemplatesEqualIgnoringRaw observed expected = true := by
    simp [triggerTemplatesEqualIgnoringRaw, hparams, hlen]
  have hpr : pipelineRunsEqual p q = true := by
    simp [pipelineRunsEqual, hname, hgen, hps, hlim]
  unfold IsNewBuildRequired
  simp [ht, heh, hoh, unmarshalPipelineRun, hpr]

/-- C4 witness: cpu quantity written as 1 on one side and as 1.000 (value
1000, scale -3) on the other; the two formats differ, the raw blobs differ,
the magnitudes agree, and no drift is reported. -/
theorem quantityFormattingNoDrift_witness :
    (Quantity.mk 1 0 "1").format ≠ (Quantity.mk 1000 (-3) "1.000").format ∧
    quantityCmpEq ⟨1, 0, "1"⟩ ⟨1000, -3, "1.000"⟩ = true ∧
    (RawBlob.encodes ⟨"", "b-", [], [("cpu", ⟨1, 0, "1"⟩)]⟩ 0 ≠
      RawBlob.encodes ⟨"", "b-", [], [("cpu", ⟨1000, -3, "1.000"⟩)]⟩ 1) ∧
    IsNewBuildRequired
      ⟨⟨"v", "TT"⟩, ⟨"tt", "ns", "1", 0⟩, ⟨[⟨"p", "", none⟩],
        [⟨.encodes ⟨"", "b-", [], [("cpu", ⟨1, 0, "1"⟩)]⟩ 0⟩]⟩⟩
      ⟨⟨"v", "TT"⟩, ⟨"tt", "ns", "2", 9⟩, ⟨[⟨"p", "", none⟩],
        [⟨.encodes ⟨"", "b-", [], [("cpu", ⟨1000, -3, "1.000"⟩)]⟩ 1⟩]⟩⟩ =
      some (false, none) :=
  ⟨by decide, by decide, by decide,
    quantityFormattingNoDrift _ _ _ _ _ _ (by decide) (by decide) rfl rfl
      rfl rfl rfl (by decide)⟩

/-- C5: getGitProvider returns exactly scheme, separator, host (credentials,
path and query stripped by the parser) with no error whenever the URL parses
with a non-empty scheme, and returns the empty string together with an error
whenever parsing fails or the parsed scheme is empty. -/
theorem getGitProvider_spec (s : String) :
    (∀ u, urlParse s = .ok u → u.scheme ≠ "" →
      getGitProvider s = (u.scheme ++ "://" ++ u.host, none)) ∧
    (∀ u, urlParse s = .ok u → u.scheme = "" →
      (getGitProvider s).1 = "" ∧ (getGitProvider s).2 ≠ none) ∧
    (∀ e, urlParse s = .error e →
      (getGitProvider s).1 = "" ∧ (getGitProvider s).2 ≠ none) := by
  refine ⟨?_, ?_, ?_⟩
  · intro u h hs
    unfold getGitProvider
    rw [h]
    simp [hs]
  · intro u h hs
    unfold getGitProvider
    rw [h]
    simp [hs]
  · intro e h
    unfold getGitProvider
    rw [h]
    simp

/-- C5 witness: the test vectors of the repository.  A https URL keeps
scheme and host only; a URL with userinfo has it stripped; scheme-less URLs
and the scp-style shorthand are rejected with the empty string. -/
theorem getGitProvider_spec_witness :
    getGitProvider "https://github.com/redhat-appstudio/application-service.git" =
      ("https://github.com", none) ∧
    getGitProvider "https://sbose78@bitbucket.org/sbose78/appstudio.git" =
      ("https://bitbucket.org", none) ∧
    (getGitProvider "github.com/redhat-appstudio/application-service.git").1 = "" ∧
    (getGitProvider "github.com/redhat-appstudio/application-service.git").2 ≠ none ∧
    (getGitProvider "git@github.com:redhat-appstudio/application-service.git").1 = "" ∧
    (getGitProvider "git@github.com:redhat-appstudio/application-service.git").2 ≠ none ∧
    (getGitProvider "not-even-a-url").1 = "" ∧
    (getGitProvider "not-even-a-url").2 ≠ none := by
  refine ⟨?_, ?_, ?_, ?_, ?_, ?_, ?_, ?_⟩
  · exact (getGitProvider_spec "https://github.com/redhat-appstudio/application-service.git").1
      ⟨"https", "", none, "github.com", "/redhat-appstudio/application-service.git", "", ""⟩
      (by decide) (by decide)
  · exact (getGitProvider_spec "https://sbose78@bitbucket.org/sbose78/appstudio.git").1
      ⟨"https", "", some "sbose78", "bitbucket.org", "/sbose78/appstudio.git", "", ""⟩
      (by decide) (by decide)
  · exact ((getGitProvider_spec "github.com/redhat-appstudio/application-service.git").2.1
      ⟨"", "", none, "", "github.com/redhat-appstudio/application-service.git", "", ""⟩
      (by decide) rfl).1
  · exact ((getGitProvider_spec "github.com/redhat-appstudio/application-service.git").2.1
      ⟨"", "", none, "", "github.com/redhat-appstudio/application-service.git", "", ""⟩
      (by decide) rfl).2
  · exact ((getGitProvider_spec "git@github.com:redhat-appstudio/application-service.git").2.2
      "first path segment in URL cannot contain a colon" (by decide)).1
  · exact ((getGitProvider_spec "git@github.com:redhat-appstudio/application-service.git").2.2
      "first path segment in URL cannot contain a colon" (by decide)).2
  · exact ((getGitProvider_spec "not-even-a-url").2.1
      ⟨"", "", none, "", "not-even-a-url", "", ""⟩ (by decide) rfl).1
  · exact ((getGitProvider_spec "not-even-a-url").2.1
      ⟨"", "", none, "", "not-even-a-url", "", ""⟩ (by decide) rfl).2

/-- The scan loop finds a linked name exactly when some entry carries it. -/
theorem secretLinked_iff (n : String) (l : List ObjectReference) :
    secretLinked n l = true ↔ ∃ x ∈ l, x.name = n := by
  induction l with
  | nil => simp [secretLinked]
  | cons h t ih =>
    by_cases hh : h.name = n <;> simp [secretLinked, hh, ih]

/-- C6: the credential linker is a no-op returning false when the name is
already linked; otherwise it returns true and appends exactly that name at
the end, keeping every existing entry in its position; hence a repeated call
changes nothing and the resulting secret list always contains the input
entries. -/
theorem updateServiceAccountIfSecretNotLinked_spec (n : String) (sa : ServiceAccount) :
    ((∃ x ∈ sa.secrets, x.name = n) →
      updateServiceAccountIfSecretNotLinked n sa = (false, sa)) ∧
    ((∀ x ∈ sa.secrets, x.name ≠ n) →
      updateServiceAccountIfSecretNotLinked n sa = (true, ⟨sa.secrets ++ [⟨n⟩]⟩)) ∧
    (updateServiceAccountIfSecretNotLinked n
        (updateServiceAccountIfSecretNotLinked n sa).2 =
      (false, (updateServiceAccountIfSecretNotLinked n sa).2)) ∧
    (∀ x ∈ sa.secrets, x ∈ (updateServiceAccountIfSecretNotLinked n sa).2.secrets) := by
  refine ⟨?_, ?_, ?_, ?_⟩
  · intro h
    have hb : secretLinked n sa.secrets = true := (secretLinked_iff n sa.secrets).2 h
    unfold updateServiceAccountIfSecretNotLinked
    simp [hb]
  · intro h
    have hb : secretLinked n sa.secrets = false := by
      cases hc : secretLinked n sa.secrets with
      | false => rfl
      | true =>
        obtain ⟨x, hx, hxn⟩ := (secretLinked_iff n sa.secrets).1 hc
        exact absurd hxn (h x hx)
    unfold updateServiceAccountIfSecretNotLinked
    simp [hb]
  · cases hc : secretLinked n sa.secrets with
    | true =>
      unfold updateServiceAccountIfSecretNotLinked
      simp [hc]
    | false =>
      have h2 : secretLinked n (sa.secrets ++ [⟨n⟩]) = true :=
        (secretLinked_iff n _).2 ⟨⟨n⟩, by simp, rfl⟩
      unfold updateServiceAccountIfSecretNotLinked
      simp [hc, h2]
  · intro x hx
    cases hc : secretLinked n sa.secrets with
    | true =>
      unfold updateServiceAccountIfSecretNotLinked
      simp [hc, hx]
    | false =>
      unfold updateServiceAccountIfSecretNotLinked
      simp [hc]
      exact Or.inl hx

/-- C6 witness: linking git-creds into the set containing only the entry
named other appends it; linking it again is a no-op; the original entry
survives. -/
theorem updateServiceAccountIfSecretNotLinked_spec_witness :
    updateServiceAccountIfSecretNotLinked "git-creds" ⟨[⟨"other"⟩]⟩ =
      (true, ⟨[⟨"other"⟩, ⟨"git-creds"⟩]⟩) ∧
    updateServiceAccountIfSecretNotLinked "git-creds"
        (updateServiceAccountIfSecretNotLinked "git-creds" ⟨[⟨"other"⟩]⟩).2 =
      (false, (updateServiceAccountIfSecretNotLinked "git-creds" ⟨[⟨"other"⟩]⟩).2) ∧
    (⟨"other"⟩ : ObjectReference) ∈
      (updateServiceAccountIfSecretNotLinked "git-creds" ⟨[⟨"other"⟩]⟩).2.secrets ∧
    updateServiceAccountIfSecretNotLinked "present"
        ⟨[⟨"present"⟩]⟩ = (false, ⟨[⟨"present"⟩]⟩) := by
  refine ⟨?_, ?_, ?_, ?_⟩
  · exact (updateServiceAccountIfSecretNotLinked_spec "git-creds" ⟨[⟨"other"⟩]⟩).2.1
      (by decide)
  · exact (updateServiceAccountIfSecretNotLinked_spec "git-creds" ⟨[⟨"other"⟩]⟩).2.2.1
  · exact (updateServiceAccountIfSecretNotLinked_spec "git-creds" ⟨[⟨"other"⟩]⟩).2.2.2
      ⟨"other"⟩ (by decide)
  · exact (updateServiceAccountIfSecretNotLinked_spec "present" ⟨[⟨"present"⟩]⟩).1
      ⟨⟨"present"⟩, by decide, rfl⟩

/-- Setting a key in the annotations map makes it readable with that value. -/
theorem lookupAnn_setAnn (l : List (String × String)) (k v : String) :
    lookupAnn (setAnn l k v) k = some v := by
  induction l with
  | nil => simp [setAnn, lookupAnn]
  | cons h t ih =>
    obtain ⟨k0, v0⟩ := h
    by_cases hk : k0 = k <;> simp [setAnn, lookupAnn, hk, ih]

/-- The create step passes the recorded writes through and only decides
success of the PipelineRun creation. -/
theorem submitCreate_fields (env : SubmitEnv) (w : Option SecretObj)
    (sa : Option ServiceAccount) (a : Nat) :
    (submitCreate env w sa a).secretWritten = w ∧
    (submitCreate env w sa a).saWritten = sa ∧
    (submitCreate env w sa a).saUpdateAttempts = a := by
  unfold submitCreate
  cases env.createBuildResult <;> exact ⟨rfl, rfl, rfl⟩

/-- The create step ignores which secret or account was written when
producing its error. -/
theorem submitCreate_err_eq (env : SubmitEnv) (w1 w2 : Option SecretObj)
    (sa1 sa2 : Option ServiceAccount) (a1 a2 : Nat) :
    (submitCreate env w1 sa1 a1).err = (submitCreate env w2 sa2 a2).err := by
  unfold submitCreate
  cases env.createBuildResult <;> rfl

/-- The link-and-create phase records exactly the secret write it was given. -/
theorem submitLinkAndCreate_secretWritten (c : Component) (env : SubmitEnv)
    (w : Option SecretObj) :
    (submitLinkAndCreate c env w).secretWritten = w := by
  unfold submitLinkAndCreate
  cases env.getServiceAccount with
  | error e => rfl
  | ok sa =>
    cases hupd : (updateServiceAccountIfSecretNotLinked c.gitSecretName sa).1 with
    | false => simp [hupd, (submitCreate_fields env w none 0).1]
    | true =>
      cases env.updateSAResults.headD none with
      | some e => simp [hupd]
      | none => simp [hupd, (submitCreate_fields env w _ 1).1]

/-- The link-and-create phase produces the same error for any two components
declaring the same secret name, whatever secret write is recorded. -/
theorem submitLinkAndCreate_err_eq (c1 c2 : Component) (env : SubmitEnv)
    (w1 w2 : Option SecretObj) (h : c1.gitSecretName = c2.gitSecretName) :
    (submitLinkAndCreate c1 env w1).err = (submitLinkAndCreate c2 env w2).err := by
  unfold submitLinkAndCreate
  rw [h]
  cases env.getServiceAccount with
  | error e => rfl
  | ok sa =>
    cases hupd : (updateServiceAccountIfSecretNotLinked c2.gitSecretName sa).1 with
    | false => simp [hupd, submitCreate_err_eq env w1 w2 none none 0 0]
    | true =>
      cases env.updateSAResults.headD none with
      | some e => simp [hupd]
      | none =>
        simp [hupd]
        exact submitCreate_err_eq env w1 w2 _ _ 1 1

/-- C7: when the component declares a credential and the secret fetch
succeeds, the written secret carries the provider annotation overwritten
with exactly the best-effort normalizer output; a failed normalization
yields the empty string there; and the submission outcome never depends on
the repository URL, so a normalization failure cannot abort the build. -/
theorem submitNewBuildOverwritesProvider (c : Component) (env : SubmitEnv)
    (s : SecretObj) (hname : c.gitSecretName ≠ "")
    (hget : env.getGitSecret = .ok s) :
    (SubmitNewBuild c env).secretWritten =
      some ⟨some (setAnn (s.annotations.getD []) "tekton.dev/git-0"
        (gitProviderBestEffort c.gitURL))⟩ ∧
    lookupAnn (setAnn (s.annotations.getD []) "tekton.dev/git-0"
        (gitProviderBestEffort c.gitURL)) "tekton.dev/git-0" =
      some (gitProviderBestEffort c.gitURL) ∧
    ((getGitProvider c.gitURL).2 ≠ none → gitProviderBestEffort c.gitURL = "") ∧
    (∀ u2, (SubmitNewBuild { c with gitURL := u2 } env).err = (SubmitNewBuild c env).err) := by
  refine ⟨?_, lookupAnn_setAnn _ _ _, ?_, ?_⟩
  · unfold SubmitNewBuild
    rw [hget]
    simp [hname]
    cases env.updateSecretResult with
    | some e => simp
    | none => simp [submitLinkAndCreate_secretWritten]
  · intro herr
    unfold gitProviderBestEffort getGitProvider
    unfold getGitProvider at herr
    cases hu : urlParse c.gitURL with
    | error e => simp [hu]
    | ok u =>
      by_cases hs : u.scheme = ""
      · simp [hu, hs]
      · rw [hu] at herr
        simp [hs] at herr
  · intro u2
    unfold SubmitNewBuild
    rw [hget]
    simp [hname]
    cases env.updateSecretResult with
    | some e => simp
    | none =>
      simp
      exact submitLinkAndCreate_err_eq _ c env _ _ rfl

/-- C7 witness: a component whose URL does not normalize (no scheme) and
whose secret already carries a good provider annotation; the annotation is
overwritten with the empty string and the build is still created. -/
theorem submitNewBuildOverwritesProvider_witness :
    (getGitProvider "not-even-a-url").2 ≠ none ∧
    (SubmitNewBuild ⟨"backend", "default", "app", "not-even-a-url", "git-creds", "devfile"⟩
        ⟨.ok ⟨some [("tekton.dev/git-0", "https://github.com")]⟩, none,
          .ok ⟨[]⟩, [none], none, none⟩).secretWritten =
      some ⟨some [("tekton.dev/git-0", "")]⟩ ∧
    (SubmitNewBuild ⟨"backend", "default", "app", "not-even-a-url", "git-creds", "devfile"⟩
        ⟨.ok ⟨some [("tekton.dev/git-0", "https://github.com")]⟩, none,
          .ok ⟨[]⟩, [none], none, none⟩).err = none ∧
    (SubmitNewBuild ⟨"backend", "default", "app", "not-even-a-url", "git-creds", "devfile"⟩
        ⟨.ok ⟨some [("tekton.dev/git-0", "https://github.com")]⟩, none,
          .ok ⟨[]⟩, [none], none, none⟩).buildCreated = true := by
  refine ⟨by decide, ?_, by decide, by decide⟩
  have h := (submitNewBuildOverwritesProvider
    ⟨"backend", "default", "app", "not-even-a-url", "git-creds", "devfile"⟩
    ⟨.ok ⟨some [("tekton.dev/git-0", "https://github.com")]⟩, none,
      .ok ⟨[]⟩, [none], none, none⟩
    ⟨some [("tekton.dev/git-0", "https://github.com")]⟩
    (by decide) rfl).1
  exact h.trans (by decide)

/-- The link-and-create phase makes at most one update attempt, and when the
recorded outcome of a first attempt is a failure, any attempted update
surfaces exactly that failure with no build created. -/
theorem submitLinkAndCreate_single_attempt (c : Component) (env : SubmitEnv)
    (w : Option SecretObj) (e : KubeErr)
    (hfirst : env.updateSAResults.headD none = some e) :
    (submitLinkAndCreate c env w).saUpdateAttempts ≤ 1 ∧
    ((submitLinkAndCreate c env w).saUpdateAttempts = 1 →
      (submitLinkAndCreate c env w).err = some e ∧
      (submitLinkAndCreate c env w).buildCreated = false) := by
  unfold submitLinkAndCreate
  cases env.getServiceAccount with
  | error e2 => exact ⟨by simp, by simp⟩
  | ok sa =>
    cases hupd : (updateServiceAccountIfSecretNotLinked c.gitSecretName sa).1 with
    | false =>
      refine ⟨?_, ?_⟩ <;> simp [hupd, (submitCreate_fields env w none 0).2.2]
    | true =>
      rw [List.headD_eq_head?_getD] at hfirst
      exact ⟨by simp [hupd, hfirst], by simp [hupd, hfirst]⟩

/-- C8 (amended): SubmitNewBuild never retries the service-account update.
It makes at most one update attempt per invocation, and whenever an update
attempt was made and its recorded first outcome is a failure (a conflict
included), exactly that failure is returned to the caller with no build
created — there is no local re-fetch or second attempt. -/
theorem submitNewBuildNoConflictRetry (c : Component) (env : SubmitEnv)
    (e : KubeErr) (hfirst : env.updateSAResults.headD none = some e) :
    (SubmitNewBuild c env).saUpdateAttempts ≤ 1 ∧
    ((SubmitNewBuild c env).saUpdateAttempts = 1 →
      (SubmitNewBuild c env).err = some e ∧
      (SubmitNewBuild c env).buildCreated = false) := by
  unfold SubmitNewBuild
  by_cases hn : c.gitSecretName = ""
  · simp only [hn, if_pos rfl]
    exact submitLinkAndCreate_single_attempt c env none e hfirst
  · simp only [hn, if_neg (by exact hn)]
    cases env.getGitSecret with
    | error e2 => exact ⟨by simp, by simp⟩
    | ok s =>
      cases env.updateSecretResult with
      | some e2 => exact ⟨by simp, by simp⟩
      | none =>
        simp only
        exact submitLinkAndCreate_single_attempt c env _ e hfirst

/-- C8 amended witness: a concrete invocation whose first recorded
service-account update outcome is a conflict. -/
theorem submitNewBuildNoConflictRetry_witness :
    (SubmitNewBuild ⟨"backend", "default", "app", "", "git-creds", "devfile"⟩
        ⟨.ok ⟨none⟩, none, .ok ⟨[⟨"other"⟩]⟩, [some .conflict, none], none, none⟩).saUpdateAttempts ≤ 1 ∧
    ((SubmitNewBuild ⟨"backend", "default", "app", "", "git-creds", "devfile"⟩
        ⟨.ok ⟨none⟩, none, .ok ⟨[⟨"other"⟩]⟩, [some .conflict, none], none, none⟩).saUpdateAttempts = 1 →
      (SubmitNewBuild ⟨"backend", "default", "app", "", "git-creds", "devfile"⟩
          ⟨.ok ⟨none⟩, none, .ok ⟨[⟨"other"⟩]⟩, [some .conflict, none], none, none⟩).err =
        some .conflict ∧
      (SubmitNewBuild ⟨"backend", "default", "app", "", "git-creds", "devfile"⟩
          ⟨.ok ⟨none⟩, none, .ok ⟨[⟨"other"⟩]⟩, [some .conflict, none], none, none⟩).buildCreated =
        false) :=
  submitNewBuildNoConflictRetry
    ⟨"backend", "default", "app", "", "git-creds", "devfile"⟩
    ⟨.ok ⟨none⟩, none, .ok ⟨[⟨"other"⟩]⟩, [some .conflict, none], none, none⟩
    .conflict (by decide)

/-- C8 counterexample: the credential git-creds is not yet linked, the first
service-account update attempt fails with a conflict, and a second attempt
would succeed (the recorded outcome of attempt two is success) — yet
SubmitNewBuild surfaces the conflict after a single attempt, creates no
build, and never re-fetches for a retry, contradicting the claimed
re-fetch-and-retry recovery. -/
theorem submitNewBuildConflictSurfacedImmediately :
    (SubmitNewBuild ⟨"backend", "default", "app", "", "git-creds", "devfile"⟩
        ⟨.ok ⟨none⟩, none, .ok ⟨[⟨"other"⟩]⟩, [some .conflict, none], none, none⟩).err =
      some KubeErr.conflict ∧
    (SubmitNewBuild ⟨"backend", "default", "app", "", "git-creds", "devfile"⟩
        ⟨.ok ⟨none⟩, none, .ok ⟨[⟨"other"⟩]⟩, [some .conflict, none], none, none⟩).saUpdateAttempts = 1 ∧
    (SubmitNewBuild ⟨"backend", "default", "app", "", "git-creds", "devfile"⟩
        ⟨.ok ⟨none⟩, none, .ok ⟨[⟨"other"⟩]⟩, [some .conflict, none], none, none⟩).buildCreated = false ∧
    ([some KubeErr.conflict, none] : List (Option KubeErr)).getD 1 none = none := by
  refine ⟨by decide, by decide, by decide, by decide⟩

/-- C9: when the component declares no credential (empty secret name), the
linking step still runs with the empty string: no secret is written, but a
reference named by the empty string is appended to a service account that
lacks one, and the account update is attempted. -/
theorem submitNewBuildLinksEmptyName (c : Component) (env : SubmitEnv)
    (sa : ServiceAccount) (hname : c.gitSecretName = "")
    (hsa : env.getServiceAccount = .ok sa)
    (hnot : ∀ x ∈ sa.secrets, x.name ≠ "") :
    (SubmitNewBuild c env).secretWritten = none ∧
    (SubmitNewBuild c env).saWritten = some ⟨sa.secrets ++ [⟨""⟩]⟩ ∧
    (SubmitNewBuild c env).saUpdateAttempts = 1 := by
  have hlink : secretLinked "" sa.secrets = false := by
    cases hc : secretLinked "" sa.secrets with
    | false => rfl
    | true =>
      obtain ⟨x, hx, hxn⟩ := (secretLinked_iff "" sa.secrets).1 hc
      exact absurd hxn (hnot x hx)
  have hupd : updateServiceAccountIfSecretNotLinked c.gitSecretName sa =
      (true, ⟨sa.secrets ++ [⟨""⟩]⟩) := by
    rw [hname]
    unfold updateServiceAccountIfSecretNotLinked
    simp [hlink]
  unfold SubmitNewBuild
  rw [if_pos hname]
  unfold submitLinkAndCreate
  rw [hsa]
  simp only [hupd]
  cases hh : env.updateSAResults.headD none with
  | some e => exact ⟨rfl, rfl, rfl⟩
  | none =>
    exact ⟨(submitCreate_fields env none _ 1).1,
      (submitCreate_fields env none _ 1).2.1,
      (submitCreate_fields env none _ 1).2.2⟩

/-- C9 witness: a component with no secret declared makes the service
account gain an entry with an empty name. -/
theorem submitNewBuildLinksEmptyName_witness :
    (SubmitNewBuild ⟨"backend", "default", "app", "https://github.com/a/b", "", "devfile"⟩
        ⟨.ok ⟨none⟩, none, .ok ⟨[⟨"default-token"⟩]⟩, [none], none, none⟩).secretWritten = none ∧
    (SubmitNewBuild ⟨"backend", "default", "app", "https://github.com/a/b", "", "devfile"⟩
        ⟨.ok ⟨none⟩, none, .ok ⟨[⟨"default-token"⟩]⟩, [none], none, none⟩).saWritten =
      some ⟨[⟨"default-token"⟩, ⟨""⟩]⟩ ∧
    (SubmitNewBuild ⟨"backend", "default", "app", "https://github.com/a/b", "", "devfile"⟩
        ⟨.ok ⟨none⟩, none, .ok ⟨[⟨"default-token"⟩]⟩, [none], none, none⟩).saUpdateAttempts = 1 :=
  submitNewBuildLinksEmptyName
    ⟨"backend", "default", "app", "https://github.com/a/b", "", "devfile"⟩
    ⟨.ok ⟨none⟩, none, .ok ⟨[⟨"default-token"⟩]⟩, [none], none, none⟩
    ⟨[⟨"default-token"⟩]⟩ rfl rfl (by decide)
